import Mathlib

/-!
Verification of the signal-analysis pipeline of the binance-trading-system
repository: the Series Fetcher, the Indicator Pipeline and the Decision
Engine, shallowly embedded from `src/jj.js` (main implementation) and the
failover fetcher variant in the unnamed source file.

Numbers are embedded as exact rationals (`ℚ`); the JavaScript source uses
IEEE doubles, whose values for the literals involved (0.5, 0.7, 0.3, 1.5)
are close approximations of the rationals used here.  Display strings of
contributions (Arabic UI labels) are presentation-only and are not modelled;
a contribution is its rule name, direction and weight.
-/

namespace Binance

/-- One OHLCV candle row.  The upstream API delivers rows as fixed-width
arrays; the code consumes indices 0 (openTime), 2 (high), 3 (low),
4 (close), 5 (volume), which are the fields kept here. -/
structure Kline where
  openTime : ℚ
  high : ℚ
  low : ℚ
  close : ℚ
  volume : ℚ
deriving DecidableEq, Repr

/-- An indicator series and its latest value: `current` is
`values[values.length - 1]` when the series is non-empty and absent
(`undefined` in the source) otherwise. -/
structure IndicatorSeries where
  values : List ℚ
  current : Option ℚ
deriving DecidableEq, Repr

/-- The MACD entry of the bundle: three series plus their stored currents
(`{}` in the source when MACD was not computed, modelled as empty lists and
absent currents, which is observationally identical for the Engine). -/
structure MacdEntry where
  MACD : List ℚ
  signal : List ℚ
  histogram : List ℚ
  currentMACD : Option ℚ
  currentSignal : Option ℚ
  currentHistogram : Option ℚ
deriving DecidableEq, Repr

/-- The Bollinger-bands entry of the bundle (never read by the Engine). -/
structure BollingerEntry where
  upper : List ℚ
  middle : List ℚ
  lower : List ℚ
  currentUpper : Option ℚ
  currentMiddle : Option ℚ
  currentLower : Option ℚ
deriving DecidableEq, Repr

/-- The stochastic entry of the bundle (never read by the Engine). -/
structure StochasticEntry where
  k : List ℚ
  d : List ℚ
  currentK : Option ℚ
  currentD : Option ℚ
deriving DecidableEq, Repr

/-- The indicator bundle produced by `calculateIndicators` and consumed by
`performAnalysis`. -/
structure IndicatorBundle where
  sma20 : IndicatorSeries
  sma50 : IndicatorSeries
  sma200 : IndicatorSeries
  rsi : IndicatorSeries
  macd : MacdEntry
  bollingerbands : BollingerEntry
  stochastic : StochasticEntry
  volumeSma20 : IndicatorSeries
  currentVolume : Option ℚ
deriving DecidableEq, Repr

/-- The five scoring rules of the Decision Engine, in the order their
contributions are pushed. -/
inductive RuleName where
  | trend
  | rsi
  | smaCrossover
  | macd
  | volume
deriving DecidableEq, Repr

/-- Signal direction, also used for the final decision
(`'buy' | 'sell' | 'neutral'` strings in the source). -/
inductive Direction where
  | buy
  | sell
  | neutral
deriving DecidableEq, Repr

/-- One entry pushed onto `analysis.signals`: rule name, direction and the
`weight` field of the pushed object.  The Arabic display string is not
modelled. -/
structure SignalContribution where
  name : RuleName
  dir : Direction
  weight : ℚ
deriving DecidableEq, Repr

/-- The analysis record returned by `performAnalysis`. -/
structure Analysis where
  signals : List SignalContribution
  score : ℚ
  decision : Direction
  confidence : ℚ
deriving DecidableEq, Repr

/-- `CONFIG.analysis.weights` of `src/jj.js`. -/
structure Weights where
  trend : ℚ
  rsi : ℚ
  smaCrossover : ℚ
  macd : ℚ
  volume : ℚ
  bb : ℚ
  stochastic : ℚ
deriving DecidableEq, Repr

/-- The configured weights: trend 30, rsi 20, smaCrossover 20, macd 15,
volume 15, bb 10, stochastic 10. -/
def configWeights : Weights :=
  { trend := 30, rsi := 20, smaCrossover := 20, macd := 15, volume := 15,
    bb := 10, stochastic := 10 }

/-- `Object.values(weights)` in declaration order. -/
def weightsValues (w : Weights) : List ℚ :=
  [w.trend, w.rsi, w.smaCrossover, w.macd, w.volume, w.bb, w.stochastic]

/-- `Object.values(weights).reduce((sum, weight) => sum + weight, 0)`. -/
def maxPossibleScore : ℚ :=
  (weightsValues configWeights).foldl (fun sum weight => sum + weight) 0

/-- `CONFIG.analysis.thresholds.buy`. -/
def buyThresholdFraction : ℚ := 1 / 2

/-- `CONFIG.analysis.thresholds.sell`. -/
def sellThresholdFraction : ℚ := -(1 / 2)

/-- JavaScript comparison `x > y` where `x` may be `undefined`
(`undefined > y` is `false`). -/
def jsGt : Option ℚ → ℚ → Bool
  | some v, x => decide (v > x)
  | none, _ => false

/-- JavaScript comparison `x < y` where `x` may be `undefined`. -/
def jsLt : Option ℚ → ℚ → Bool
  | some v, x => decide (v < x)
  | none, _ => false

/-- `l[l.length - 1]`, defaulting to 0 (the source only evaluates it when
the list is known non-empty). -/
def lastElem (l : List ℚ) : ℚ := l.getLastD 0

/-- `l[l.length - 2]`, defaulting to 0 (the source only evaluates it when
`l.length > 1`). -/
def secondLastElem (l : List ℚ) : ℚ := l.dropLast.getLastD 0

/-- Rule 1, "Trend analysis": fires only when both `sma50.current` and
`sma200.current` are defined; uptrend adds the trend weight, downtrend
subtracts it.  Returns the pushed contribution and the score delta. -/
def ruleTrend (b : IndicatorBundle) (currentPrice : Option ℚ) :
    SignalContribution × ℚ :=
  match b.sma50.current, b.sma200.current with
  | some s50, some s200 =>
    let isUptrend := decide (s50 > s200) && jsGt currentPrice s50
    let isDowntrend := decide (s50 < s200) && jsLt currentPrice s50
    if isUptrend then
      (⟨.trend, .buy, configWeights.trend⟩, configWeights.trend)
    else if isDowntrend then
      (⟨.trend, .sell, configWeights.trend⟩, -configWeights.trend)
    else
      (⟨.trend, .neutral, 0⟩, 0)
  | _, _ => (⟨.trend, .neutral, 0⟩, 0)

/-- Rule 2, "RSI analysis": below 30 buy, above 70 sell, else neutral;
absent `rsi.current` gives the insufficient-data neutral entry. -/
def ruleRsi (b : IndicatorBundle) : SignalContribution × ℚ :=
  match b.rsi.current with
  | some r =>
    if r < 30 then
      (⟨.rsi, .buy, configWeights.rsi⟩, configWeights.rsi)
    else if r > 70 then
      (⟨.rsi, .sell, configWeights.rsi⟩, -configWeights.rsi)
    else
      (⟨.rsi, .neutral, 0⟩, 0)
  | none => (⟨.rsi, .neutral, 0⟩, 0)

/-- Rule 3, "Moving averages crossover (20/50)": needs both currents
defined and both value series longer than 1; compares the current pair
against the previous pair. -/
def ruleSmaCrossover (b : IndicatorBundle) : SignalContribution × ℚ :=
  match b.sma20.current, b.sma50.current with
  | some c20, some c50 =>
    if b.sma20.values.length > 1 ∧ b.sma50.values.length > 1 then
      let previousSma20 := secondLastElem b.sma20.values
      let previousSma50 := secondLastElem b.sma50.values
      if c20 > c50 ∧ previousSma20 ≤ previousSma50 then
        (⟨.smaCrossover, .buy, configWeights.smaCrossover⟩,
          configWeights.smaCrossover)
      else if c20 < c50 ∧ previousSma20 ≥ previousSma50 then
        (⟨.smaCrossover, .sell, configWeights.smaCrossover⟩,
          -configWeights.smaCrossover)
      else
        (⟨.smaCrossover, .neutral, 0⟩, 0)
    else
      (⟨.smaCrossover, .neutral, 0⟩, 0)
  | _, _ => (⟨.smaCrossover, .neutral, 0⟩, 0)

/-- Rule 4, "MACD analysis": an ordered cascade; a line/signal crossover
applies 0.7 of the macd weight, a histogram sign flip 0.3 of it.  The
currents are taken from the bundle's stored `currentMACD`/`currentSignal`,
the previous values and the histogram pair from the arrays. -/
def ruleMacd (b : IndicatorBundle) : SignalContribution × ℚ :=
  if b.macd.MACD.length > 1 ∧ b.macd.signal.length > 1 ∧
      b.macd.histogram.length > 1 then
    match b.macd.currentMACD, b.macd.currentSignal with
    | some currentMACD, some currentSignal =>
      let previousMACD := secondLastElem b.macd.MACD
      let previousSignal := secondLastElem b.macd.signal
      let currentHistogram := lastElem b.macd.histogram
      let previousHistogram := secondLastElem b.macd.histogram
      if currentMACD > currentSignal ∧ previousMACD ≤ previousSignal then
        (⟨.macd, .buy, configWeights.macd * (7 / 10)⟩,
          configWeights.macd * (7 / 10))
      else if currentMACD < currentSignal ∧ previousMACD ≥ previousSignal then
        (⟨.macd, .sell, configWeights.macd * (7 / 10)⟩,
          -(configWeights.macd * (7 / 10)))
      else if currentHistogram > 0 ∧ previousHistogram ≤ 0 then
        (⟨.macd, .buy, configWeights.macd * (3 / 10)⟩,
          configWeights.macd * (3 / 10))
      else if currentHistogram < 0 ∧ previousHistogram ≥ 0 then
        (⟨.macd, .sell, configWeights.macd * (3 / 10)⟩,
          -(configWeights.macd * (3 / 10)))
      else
        (⟨.macd, .neutral, 0⟩, 0)
    | _, _ => (⟨.macd, .neutral, 0⟩, 0)
  else (⟨.macd, .neutral, 0⟩, 0)

/-- `indicators.currentVolume !== undefined ? currentVolume / volumeSma20.current : 0`. -/
def volumeRatio (currentVolume : Option ℚ) (volumeSma : ℚ) : ℚ :=
  match currentVolume with
  | some v => v / volumeSma
  | none => 0

/-- The condition `volumeRatio > 1.5` under JavaScript arithmetic: when the
average volume is 0, `v / 0` is `+Infinity` (which exceeds 1.5) exactly when
`v > 0` (`-Infinity` and `NaN` do not); otherwise it is the exact quotient. -/
def volumeRatioHigh (currentVolume : Option ℚ) (volumeSma : ℚ) : Bool :=
  match currentVolume with
  | none => false
  | some v =>
    if volumeSma = 0 then decide (0 < v)
    else decide (volumeRatio (some v) volumeSma > 3 / 2)

/-- Rule 5, "Volume analysis": needs `volumeSma20.current` and both prices
defined; high relative volume with a price rise buys, with a price fall
sells, anything else is neutral (including an absent `currentVolume`, whose
ratio is taken to be 0). -/
def ruleVolume (b : IndicatorBundle) (currentPrice previousPrice : Option ℚ) :
    SignalContribution × ℚ :=
  match b.volumeSma20.current, currentPrice, previousPrice with
  | some volumeSma, some p, some q =>
    let high := volumeRatioHigh b.currentVolume volumeSma
    let priceIncreased := decide (p > q)
    let priceDecreased := decide (p < q)
    if high && priceIncreased then
      (⟨.volume, .buy, configWeights.volume⟩, configWeights.volume)
    else if high && priceDecreased then
      (⟨.volume, .sell, configWeights.volume⟩, -configWeights.volume)
    else
      (⟨.volume, .neutral, 0⟩, 0)
  | _, _, _ => (⟨.volume, .neutral, 0⟩, 0)

/-- The final-decision block of `performAnalysis`: thresholds are the
configured fractions of `maxPossibleScore`; confidence is the normalized
distance past the threshold, clamped to 1, and 0 on a neutral decision. -/
def finalizeAnalysis (signals : List SignalContribution) (score : ℚ) :
    Analysis :=
  let buyThreshold := maxPossibleScore * buyThresholdFraction
  let sellThreshold := maxPossibleScore * sellThresholdFraction
  if score ≥ buyThreshold then
    let confidenceRange := maxPossibleScore - buyThreshold
    { signals := signals, score := score, decision := .buy,
      confidence :=
        if confidenceRange > 0 then
          min 1 ((score - buyThreshold) / confidenceRange)
        else 1 }
  else if score ≤ sellThreshold then
    let confidenceRange := maxPossibleScore - |sellThreshold|
    { signals := signals, score := score, decision := .sell,
      confidence :=
        if confidenceRange > 0 then
          min 1 ((|score| - |sellThreshold|) / confidenceRange)
        else 1 }
  else
    { signals := signals, score := score, decision := .neutral,
      confidence := 0 }

/-- `performAnalysis(indicators, currentPrice, previousPrice)` of
`src/jj.js`: the five rules in order, each pushing one contribution and
adjusting the score, followed by the final-decision block.  Prices are
`Option ℚ` because the source guards against `undefined` arguments. -/
def performAnalysis (b : IndicatorBundle)
    (currentPrice previousPrice : Option ℚ) : Analysis :=
  let r1 := ruleTrend b currentPrice
  let r2 := ruleRsi b
  let r3 := ruleSmaCrossover b
  let r4 := ruleMacd b
  let r5 := ruleVolume b currentPrice previousPrice
  finalizeAnalysis [r1.1, r2.1, r3.1, r4.1, r5.1]
    (r1.2 + r2.2 + r3.2 + r4.2 + r5.2)

/-- Spec-side notion (§3 of the spec): the signed amount a contribution
applies to the score — positive for buy, negative for sell, 0 for neutral. -/
def signedWeight (c : SignalContribution) : ℚ :=
  match c.dir with
  | .buy => c.weight
  | .sell => -c.weight
  | .neutral => 0

/-- The invariant each rule's result satisfies: correct rule name, the score
delta is the signed weight of the pushed contribution, the weight field lies
in `[0, M]`, and a neutral contribution has weight 0. -/
def RuleOk (r : SignalContribution × ℚ) (nm : RuleName) (M : ℚ) : Prop :=
  r.1.name = nm ∧ r.2 = signedWeight r.1 ∧ 0 ≤ r.1.weight ∧
  r.1.weight ≤ M ∧ (r.1.dir = .neutral → r.1.weight = 0)

lemma RuleOk.abs_delta {r : SignalContribution × ℚ} {nm : RuleName} {M : ℚ}
    (h : RuleOk r nm M) : |r.2| ≤ M := by
  obtain ⟨-, hd, hw0, hwM, -⟩ := h
  have habs : |r.1.weight| ≤ M := by rw [abs_of_nonneg hw0]; exact hwM
  rw [hd]
  rcases hdir : r.1.dir <;>
    simp only [signedWeight, hdir, abs_neg, abs_zero]
  · exact habs
  · exact habs
  · linarith

lemma ruleTrend_ok (b : IndicatorBundle) (cp : Option ℚ) :
    RuleOk (ruleTrend b cp) .trend 30 := by
  unfold RuleOk ruleTrend
  rcases b.sma50.current with _ | s50 <;>
    rcases b.sma200.current with _ | s200 <;> dsimp only <;>
    (try split_ifs) <;> norm_num [signedWeight, configWeights]

lemma ruleRsi_ok (b : IndicatorBundle) : RuleOk (ruleRsi b) .rsi 20 := by
  unfold RuleOk ruleRsi
  rcases b.rsi.current with _ | r <;> dsimp only <;>
    (try split_ifs) <;> norm_num [signedWeight, configWeights]

lemma ruleSmaCrossover_ok (b : IndicatorBundle) :
    RuleOk (ruleSmaCrossover b) .smaCrossover 20 := by
  unfold RuleOk ruleSmaCrossover
  rcases b.sma20.current with _ | c20 <;>
    rcases b.sma50.current with _ | c50 <;> dsimp only <;>
    (try split_ifs) <;> norm_num [signedWeight, configWeights]

lemma ruleMacd_ok (b : IndicatorBundle) : RuleOk (ruleMacd b) .macd (21 / 2) := by
  unfold RuleOk ruleMacd
  split_ifs with h
  · rcases b.macd.currentMACD with _ | cm <;>
      rcases b.macd.currentSignal with _ | cs <;> dsimp only <;>
      (try split_ifs) <;> norm_num [signedWeight, configWeights]
  · norm_num [signedWeight]

lemma ruleVolume_ok (b : IndicatorBundle) (cp pp : Option ℚ) :
    RuleOk (ruleVolume b cp pp) .volume 15 := by
  unfold RuleOk ruleVolume
  rcases b.volumeSma20.current with _ | vs <;> rcases cp with _ | p <;>
    rcases pp with _ | q <;> dsimp only <;>
    (try split_ifs) <;> norm_num [signedWeight, configWeights]

lemma maxPossibleScore_eq : maxPossibleScore = 120 := by
  norm_num [maxPossibleScore, weightsValues, configWeights]

lemma finalizeAnalysis_signals (sg : List SignalContribution) (s : ℚ) :
    (finalizeAnalysis sg s).signals = sg := by
  unfold finalizeAnalysis
  dsimp only
  split_ifs <;> rfl

lemma finalizeAnalysis_score (sg : List SignalContribution) (s : ℚ) :
    (finalizeAnalysis sg s).score = s := by
  unfold finalizeAnalysis
  dsimp only
  split_ifs <;> rfl

lemma finalizeAnalysis_decision_buy (sg : List SignalContribution) (s : ℚ) :
    (finalizeAnalysis sg s).decision = .buy ↔ 60 ≤ s := by
  unfold finalizeAnalysis
  dsimp only
  rw [maxPossibleScore_eq]
  norm_num [buyThresholdFraction, sellThresholdFraction]
  split_ifs with h1 h2 <;> simp_all

lemma finalizeAnalysis_decision_sell (sg : List SignalContribution) (s : ℚ) :
    (finalizeAnalysis sg s).decision = .sell ↔ s ≤ -60 := by
  unfold finalizeAnalysis
  dsimp only
  rw [maxPossibleScore_eq]
  norm_num [buyThresholdFraction, sellThresholdFraction]
  split_ifs with h1 h2 <;> simp_all <;> linarith

lemma finalizeAnalysis_decision_neutral (sg : List SignalContribution) (s : ℚ) :
    (finalizeAnalysis sg s).decision = .neutral ↔ (-60 < s ∧ s < 60) := by
  unfold finalizeAnalysis
  dsimp only
  rw [maxPossibleScore_eq]
  norm_num [buyThresholdFraction, sellThresholdFraction]
  split_ifs with h1 h2 <;> simp_all

lemma finalizeAnalysis_confidence_nonneg (sg : List SignalContribution)
    (s : ℚ) : 0 ≤ (finalizeAnalysis sg s).confidence := by
  unfold finalizeAnalysis
  dsimp only
  rw [maxPossibleScore_eq]
  norm_num [buyThresholdFraction, sellThresholdFraction]
  split_ifs with h1 h2 <;> simp_all
  · exact div_nonneg (by linarith) (by norm_num)
  · rw [abs_of_nonpos (by linarith)]
    exact div_nonneg (by linarith) (by norm_num)

lemma finalizeAnalysis_confidence_le_one (sg : List SignalContribution)
    (s : ℚ) : (finalizeAnalysis sg s).confidence ≤ 1 := by
  unfold finalizeAnalysis
  dsimp only
  rw [maxPossibleScore_eq]
  norm_num [buyThresholdFraction, sellThresholdFraction]
  split_ifs with h1 h2 <;> simp

lemma finalizeAnalysis_neutral_confidence (sg : List SignalContribution)
    (s : ℚ) (h : (finalizeAnalysis sg s).decision = .neutral) :
    (finalizeAnalysis sg s).confidence = 0 := by
  unfold finalizeAnalysis at *
  dsimp only at h ⊢
  split_ifs at h ⊢ <;> simp_all

/-- `performAnalysis` unfolded to its finalization of the five rules. -/
lemma performAnalysis_def (b : IndicatorBundle) (cp pp : Option ℚ) :
    performAnalysis b cp pp =
      finalizeAnalysis
        [(ruleTrend b cp).1, (ruleRsi b).1, (ruleSmaCrossover b).1,
          (ruleMacd b).1, (ruleVolume b cp pp).1]
        ((ruleTrend b cp).2 + (ruleRsi b).2 + (ruleSmaCrossover b).2 +
          (ruleMacd b).2 + (ruleVolume b cp pp).2) := rfl

/-- The realized score magnitude is bounded by the sum of the realizable
rule weights 30 + 20 + 20 + 10.5 + 15 = 95.5. -/
lemma performAnalysis_score_abs_le (b : IndicatorBundle) (cp pp : Option ℚ) :
    |(performAnalysis b cp pp).score| ≤ 191 / 2 := by
  have h1 := (ruleTrend_ok b cp).abs_delta
  have h2 := (ruleRsi_ok b).abs_delta
  have h3 := (ruleSmaCrossover_ok b).abs_delta
  have h4 := (ruleMacd_ok b).abs_delta
  have h5 := (ruleVolume_ok b cp pp).abs_delta
  rw [performAnalysis_def, finalizeAnalysis_score]
  have t4 := abs_add
    ((ruleTrend b cp).2 + (ruleRsi b).2 + (ruleSmaCrossover b).2 +
      (ruleMacd b).2) ((ruleVolume b cp pp).2)
  have t3 := abs_add
    ((ruleTrend b cp).2 + (ruleRsi b).2 + (ruleSmaCrossover b).2)
    ((ruleMacd b).2)
  have t2 := abs_add ((ruleTrend b cp).2 + (ruleRsi b).2)
    ((ruleSmaCrossover b).2)
  have t1 := abs_add ((ruleTrend b cp).2) ((ruleRsi b).2)
  linarith

/-- Confidence is bounded by (95.5 − 60) / 60 = 71/120 whenever the score
magnitude is at most 95.5. -/
lemma finalizeAnalysis_confidence_le (sg : List SignalContribution) (s : ℚ)
    (h : |s| ≤ 191 / 2) : (finalizeAnalysis sg s).confidence ≤ 71 / 120 := by
  have hs := abs_le.1 h
  unfold finalizeAnalysis
  dsimp only
  rw [maxPossibleScore_eq]
  norm_num [buyThresholdFraction, sellThresholdFraction]
  split_ifs with h1 h2 <;> simp_all
  · right
    rw [div_le_iff₀ (by norm_num : (0:ℚ) < 60)]
    linarith
  · right
    rw [abs_of_nonpos (by linarith), div_le_iff₀ (by norm_num : (0:ℚ) < 60)]
    linarith
  · norm_num

/-- When `sma50.current` or `sma200.current` is absent, the trend rule
yields the neutral zero-weight entry. -/
lemma ruleTrend_absent (b : IndicatorBundle) (cp : Option ℚ)
    (h : b.sma50.current = none ∨ b.sma200.current = none) :
    ruleTrend b cp = (⟨.trend, .neutral, 0⟩, 0) := by
  rcases h with h | h <;>
    cases h5 : b.sma50.current <;> cases h2 : b.sma200.current <;>
    simp_all [ruleTrend]

/-- When `rsi.current` is absent, the RSI rule yields the neutral
zero-weight entry. -/
lemma ruleRsi_absent (b : IndicatorBundle) (h : b.rsi.current = none) :
    ruleRsi b = (⟨.rsi, .neutral, 0⟩, 0) := by
  simp [ruleRsi, h]

/-- When the crossover rule's required data is missing (either current
absent or either series not longer than 1), it yields the neutral
zero-weight entry. -/
lemma ruleSmaCrossover_absent (b : IndicatorBundle)
    (h : b.sma20.current = none ∨ b.sma50.current = none ∨
      b.sma20.values.length ≤ 1 ∨ b.sma50.values.length ≤ 1) :
    ruleSmaCrossover b = (⟨.smaCrossover, .neutral, 0⟩, 0) := by
  unfold ruleSmaCrossover
  rcases h20 : b.sma20.current with _ | c20 <;>
    rcases h50 : b.sma50.current with _ | c50 <;> dsimp only <;> try rfl
  have hlen : ¬(b.sma20.values.length > 1 ∧ b.sma50.values.length > 1) := by
    rcases h with h | h | h | h
    · simp [h] at h20
    · simp [h] at h50
    · omega
    · omega
  rw [if_neg hlen]

/-- When the MACD rule's required data is missing (any series not longer
than 1 or either stored current absent), it yields the neutral zero-weight
entry. -/
lemma ruleMacd_absent (b : IndicatorBundle)
    (h : b.macd.MACD.length ≤ 1 ∨ b.macd.signal.length ≤ 1 ∨
      b.macd.histogram.length ≤ 1 ∨ b.macd.currentMACD = none ∨
      b.macd.currentSignal = none) :
    ruleMacd b = (⟨.macd, .neutral, 0⟩, 0) := by
  unfold ruleMacd
  split_ifs with hg
  · obtain ⟨g1, g2, g3⟩ := hg
    cases hm : b.macd.currentMACD <;> cases hsig : b.macd.currentSignal <;>
      simp_all
    omega
  · rfl

/-- When `volumeSma20.current` or either price is undefined, the volume
rule yields the neutral zero-weight entry. -/
lemma ruleVolume_absent (b : IndicatorBundle) (cp pp : Option ℚ)
    (h : b.volumeSma20.current = none ∨ cp = none ∨ pp = none) :
    ruleVolume b cp pp = (⟨.volume, .neutral, 0⟩, 0) := by
  cases hv : b.volumeSma20.current <;> cases cp <;> cases pp <;>
    simp_all [ruleVolume]

/-- A bundle with every series empty and every current absent. -/
def emptyBundle : IndicatorBundle :=
  { sma20 := ⟨[], none⟩, sma50 := ⟨[], none⟩, sma200 := ⟨[], none⟩,
    rsi := ⟨[], none⟩, macd := ⟨[], [], [], none, none, none⟩,
    bollingerbands := ⟨[], [], [], none, none, none⟩,
    stochastic := ⟨[], [], none, none⟩,
    volumeSma20 := ⟨[], none⟩, currentVolume := none }

/-- A bundle whose trend and RSI rules both fire buy (score 30 + 20 = 50)
while the remaining rules lack data. -/
def bundleFifty : IndicatorBundle :=
  { emptyBundle with
    sma50 := ⟨[], some 2⟩, sma200 := ⟨[], some 1⟩, rsi := ⟨[], some 25⟩ }

/-- A bundle whose trend rule fires sell (price 1/2 below sma50 1 below
sma200 2) while the remaining rules lack data. -/
def bundleDowntrend : IndicatorBundle :=
  { emptyBundle with sma50 := ⟨[], some 1⟩, sma200 := ⟨[], some 2⟩ }

/-- A bundle on which, with prices 3 (current) and 1 (previous), all five
rules fire buy, the MACD rule through its 0.7-weight crossover branch:
the maximal attainable score 95.5. -/
def bundleMaxBuy : IndicatorBundle :=
  { emptyBundle with
    sma20 := ⟨[1, 3], some 3⟩, sma50 := ⟨[2, 2], some 2⟩,
    sma200 := ⟨[], some 1⟩, rsi := ⟨[], some 25⟩,
    macd := ⟨[0, 2], [1, 1], [1, 1], some 2, some 1, some 1⟩,
    volumeSma20 := ⟨[], some 1⟩, currentVolume := some 2 }

/-- A bundle with a defined average volume but an absent current volume. -/
def bundleNoVolume : IndicatorBundle :=
  { emptyBundle with volumeSma20 := ⟨[], some 1⟩ }

/-- C1 counterexample: the configured weights sum to 120, not 100, so a
score of exactly 50 — reached when trend (+30) and RSI (+20) fire — yields
a neutral decision, not buy: the claimed threshold `score ≥ 50 ⇒ buy` is
false on the code. -/
theorem C1_counterexample :
    maxPossibleScore = 120 ∧
    (performAnalysis bundleFifty (some 3) none).score = 50 ∧
    (performAnalysis bundleFifty (some 3) none).decision = .neutral := by
  refine ⟨maxPossibleScore_eq, ?_, ?_⟩ <;>
    norm_num [performAnalysis, ruleTrend, ruleRsi, ruleSmaCrossover, ruleMacd,
      ruleVolume, finalizeAnalysis, maxPossibleScore, weightsValues,
      configWeights, jsGt, jsLt, lastElem, secondLastElem, volumeRatio,
      volumeRatioHigh, buyThresholdFraction, sellThresholdFraction,
      bundleFifty, emptyBundle]

/-- C1 (amended): `maxPossibleScore` is 120, the sum of all seven
configured weights 30+20+20+15+15+10+10, so the decision is buy exactly
when the score is at least 60, sell exactly when it is at most −60, and
neutral otherwise. -/
theorem C1_thresholds (b : IndicatorBundle) (cp pp : Option ℚ) :
    maxPossibleScore = 120 ∧
    ((performAnalysis b cp pp).decision = .buy ↔
      60 ≤ (performAnalysis b cp pp).score) ∧
    ((performAnalysis b cp pp).decision = .sell ↔
      (performAnalysis b cp pp).score ≤ -60) ∧
    ((performAnalysis b cp pp).decision = .neutral ↔
      (-60 < (performAnalysis b cp pp).score ∧
        (performAnalysis b cp pp).score < 60)) := by
  refine ⟨maxPossibleScore_eq, ?_, ?_, ?_⟩ <;>
    rw [performAnalysis_def, finalizeAnalysis_score]
  · exact finalizeAnalysis_decision_buy _ _
  · exact finalizeAnalysis_decision_sell _ _
  · exact finalizeAnalysis_decision_neutral _ _

/-- C1 witness: the amended thresholds evaluated on the score-50 bundle. -/
theorem C1_thresholds_witness :
    maxPossibleScore = 120 ∧
    ((performAnalysis bundleFifty (some 3) none).decision = .buy ↔
      60 ≤ (performAnalysis bundleFifty (some 3) none).score) ∧
    ((performAnalysis bundleFifty (some 3) none).decision = .sell ↔
      (performAnalysis bundleFifty (some 3) none).score ≤ -60) ∧
    ((performAnalysis bundleFifty (some 3) none).decision = .neutral ↔
      (-60 < (performAnalysis bundleFifty (some 3) none).score ∧
        (performAnalysis bundleFifty (some 3) none).score < 60)) :=
  C1_thresholds bundleFifty (some 3) none

/-- C2: for every bundle and prices the Engine returns a Signal (the
embedding is a total function) whose contribution list has exactly one
entry per configured rule, in rule order; a rule whose required indicator
data is absent contributes a neutral, zero-weight entry. -/
theorem C2_contract (b : IndicatorBundle) (cp pp : Option ℚ) :
    (performAnalysis b cp pp).signals.length = 5 ∧
    (performAnalysis b cp pp).signals.map SignalContribution.name =
      [.trend, .rsi, .smaCrossover, .macd, .volume] ∧
    (b.sma50.current = none ∨ b.sma200.current = none →
      (performAnalysis b cp pp).signals.get? 0 =
        some ⟨.trend, .neutral, 0⟩) ∧
    (b.rsi.current = none →
      (performAnalysis b cp pp).signals.get? 1 = some ⟨.rsi, .neutral, 0⟩) ∧
    (b.sma20.current = none ∨ b.sma50.current = none ∨
        b.sma20.values.length ≤ 1 ∨ b.sma50.values.length ≤ 1 →
      (performAnalysis b cp pp).signals.get? 2 =
        some ⟨.smaCrossover, .neutral, 0⟩) ∧
    (b.macd.MACD.length ≤ 1 ∨ b.macd.signal.length ≤ 1 ∨
        b.macd.histogram.length ≤ 1 ∨ b.macd.currentMACD = none ∨
        b.macd.currentSignal = none →
      (performAnalysis b cp pp).signals.get? 3 =
        some ⟨.macd, .neutral, 0⟩) ∧
    (b.volumeSma20.current = none ∨ cp = none ∨ pp = none →
      (performAnalysis b cp pp).signals.get? 4 =
        some ⟨.volume, .neutral, 0⟩) := by
  have hsig : (performAnalysis b cp pp).signals =
      [(ruleTrend b cp).1, (ruleRsi b).1, (ruleSmaCrossover b).1,
        (ruleMacd b).1, (ruleVolume b cp pp).1] := by
    rw [performAnalysis_def, finalizeAnalysis_signals]
  refine ⟨?_, ?_, ?_, ?_, ?_, ?_, ?_⟩
  · rw [hsig]; rfl
  · rw [hsig]
    simp [(ruleTrend_ok b cp).1, (ruleRsi_ok b).1, (ruleSmaCrossover_ok b).1,
      (ruleMacd_ok b).1, (ruleVolume_ok b cp pp).1]
  · intro h
    rw [hsig, ruleTrend_absent b cp h]
    rfl
  · intro h
    rw [hsig, ruleRsi_absent b h]
    rfl
  · intro h
    rw [hsig, ruleSmaCrossover_absent b h]
    rfl
  · intro h
    rw [hsig, ruleMacd_absent b h]
    rfl
  · intro h
    rw [hsig, ruleVolume_absent b cp pp h]
    rfl

/-- C2 witness: on a bundle with no indicator data at all, every rule
contributes its neutral zero-weight entry and the list still has all five
entries. -/
theorem C2_contract_witness :
    (performAnalysis emptyBundle none none).signals.length = 5 ∧
    (performAnalysis emptyBundle none none).signals.get? 0 =
      some ⟨.trend, .neutral, 0⟩ ∧
    (performAnalysis emptyBundle none none).signals.get? 1 =
      some ⟨.rsi, .neutral, 0⟩ ∧
    (performAnalysis emptyBundle none none).signals.get? 2 =
      some ⟨.smaCrossover, .neutral, 0⟩ ∧
    (performAnalysis emptyBundle none none).signals.get? 3 =
      some ⟨.macd, .neutral, 0⟩ ∧
    (performAnalysis emptyBundle none none).signals.get? 4 =
      some ⟨.volume, .neutral, 0⟩ :=
  ⟨(C2_contract emptyBundle none none).1,
    (C2_contract emptyBundle none none).2.2.1 (Or.inl rfl),
    (C2_contract emptyBundle none none).2.2.2.1 rfl,
    (C2_contract emptyBundle none none).2.2.2.2.1 (Or.inl rfl),
    (C2_contract emptyBundle none none).2.2.2.2.2.1 (Or.inl (by simp [emptyBundle])),
    (C2_contract emptyBundle none none).2.2.2.2.2.2 (Or.inl rfl)⟩

/-- C3: the score always lies in `[-maxPossibleScore, maxPossibleScore]`,
confidence always lies in `[0, 1]`, and a neutral decision has confidence
exactly 0. -/
theorem C3_bounds (b : IndicatorBundle) (cp pp : Option ℚ) :
    -maxPossibleScore ≤ (performAnalysis b cp pp).score ∧
    (performAnalysis b cp pp).score ≤ maxPossibleScore ∧
    0 ≤ (performAnalysis b cp pp).confidence ∧
    (performAnalysis b cp pp).confidence ≤ 1 ∧
    ((performAnalysis b cp pp).decision = .neutral →
      (performAnalysis b cp pp).confidence = 0) := by
  have habs := abs_le.1 (performAnalysis_score_abs_le b cp pp)
  refine ⟨?_, ?_, ?_, ?_, ?_⟩
  · rw [maxPossibleScore_eq]; linarith [habs.1]
  · rw [maxPossibleScore_eq]; linarith [habs.2]
  · rw [performAnalysis_def]; exact finalizeAnalysis_confidence_nonneg _ _
  · rw [performAnalysis_def]; exact finalizeAnalysis_confidence_le_one _ _
  · rw [performAnalysis_def]; exact finalizeAnalysis_neutral_confidence _ _

/-- C3 witness: the bounds evaluated on the empty bundle, whose decision is
neutral with confidence 0 and score 0. -/
theorem C3_bounds_witness :
    -maxPossibleScore ≤ (performAnalysis emptyBundle none none).score ∧
    (performAnalysis emptyBundle none none).score ≤ maxPossibleScore ∧
    (performAnalysis emptyBundle none none).decision = .neutral ∧
    (performAnalysis emptyBundle none none).confidence = 0 :=
  ⟨(C3_bounds emptyBundle none none).1, (C3_bounds emptyBundle none none).2.1,
    by norm_num [performAnalysis, ruleTrend, ruleRsi, ruleSmaCrossover,
      ruleMacd, ruleVolume, finalizeAnalysis, maxPossibleScore, weightsValues,
      configWeights, buyThresholdFraction, sellThresholdFraction, emptyBundle],
    (C3_bounds emptyBundle none none).2.2.2.2
      (by norm_num [performAnalysis, ruleTrend, ruleRsi, ruleSmaCrossover,
        ruleMacd, ruleVolume, finalizeAnalysis, maxPossibleScore,
        weightsValues, configWeights, buyThresholdFraction,
        sellThresholdFraction, emptyBundle])⟩

/-- C4 counterexample: on a pure-downtrend signal the trend contribution is
a sell with weight field +30 (not −30), the score is −30, and the sum of
the raw weight fields is +30 ≠ −30: the weight field is not the signed
amount applied to the score. -/
theorem C4_counterexample :
    (performAnalysis bundleDowntrend (some (1 / 2)) none).score = -30 ∧
    (performAnalysis bundleDowntrend (some (1 / 2)) none).signals.get? 0 =
      some ⟨.trend, .sell, 30⟩ ∧
    ((performAnalysis bundleDowntrend (some (1 / 2)) none).signals.map
      SignalContribution.weight).sum = 30 := by
  refine ⟨?_, ?_, ?_⟩ <;>
    norm_num [performAnalysis, ruleTrend, ruleRsi, ruleSmaCrossover, ruleMacd,
      ruleVolume, finalizeAnalysis, maxPossibleScore, weightsValues,
      configWeights, jsGt, jsLt, lastElem, secondLastElem, volumeRatio,
      volumeRatioHigh, buyThresholdFraction, sellThresholdFraction,
      bundleDowntrend, emptyBundle]

/-- C4 (amended): the weight field is the unsigned magnitude applied — it
is nonnegative, zero on a neutral contribution, and the score equals the
sum over the contributions of the weight signed by the direction
(+weight for buy, −weight for sell, 0 for neutral). -/
theorem C4_signed_sum (b : IndicatorBundle) (cp pp : Option ℚ) :
    (performAnalysis b cp pp).score =
      ((performAnalysis b cp pp).signals.map signedWeight).sum ∧
    ∀ c ∈ (performAnalysis b cp pp).signals,
      0 ≤ c.weight ∧ (c.dir = .neutral → c.weight = 0) := by
  have hsig : (performAnalysis b cp pp).signals =
      [(ruleTrend b cp).1, (ruleRsi b).1, (ruleSmaCrossover b).1,
        (ruleMacd b).1, (ruleVolume b cp pp).1] := by
    rw [performAnalysis_def, finalizeAnalysis_signals]
  have h1 := ruleTrend_ok b cp
  have h2 := ruleRsi_ok b
  have h3 := ruleSmaCrossover_ok b
  have h4 := ruleMacd_ok b
  have h5 := ruleVolume_ok b cp pp
  constructor
  · rw [performAnalysis_def, finalizeAnalysis_score, finalizeAnalysis_signals]
    rw [h1.2.1, h2.2.1, h3.2.1, h4.2.1, h5.2.1]
    simp [List.sum_cons]
    ring
  · intro c hc
    rw [hsig] at hc
    simp only [List.mem_cons, List.not_mem_nil, or_false] at hc
    rcases hc with rfl | rfl | rfl | rfl | rfl
    · exact ⟨h1.2.2.1, h1.2.2.2.2⟩
    · exact ⟨h2.2.2.1, h2.2.2.2.2⟩
    · exact ⟨h3.2.2.1, h3.2.2.2.2⟩
    · exact ⟨h4.2.2.1, h4.2.2.2.2⟩
    · exact ⟨h5.2.2.1, h5.2.2.2.2⟩

/-- C4 witness: on the downtrend bundle the score equals the sum of
direction-signed weights, and the sell contribution has nonnegative
weight. -/
theorem C4_signed_sum_witness :
    (performAnalysis bundleDowntrend (some (1 / 2)) none).score =
      ((performAnalysis bundleDowntrend (some (1 / 2)) none).signals.map
        signedWeight).sum ∧
    (0 : ℚ) ≤ (⟨.trend, .sell, 30⟩ : SignalContribution).weight :=
  ⟨(C4_signed_sum bundleDowntrend (some (1 / 2)) none).1,
    ((C4_signed_sum bundleDowntrend (some (1 / 2)) none).2
      ⟨.trend, .sell, 30⟩
      (by norm_num [performAnalysis, ruleTrend, ruleRsi, ruleSmaCrossover,
        ruleMacd, ruleVolume, finalizeAnalysis, maxPossibleScore,
        weightsValues, configWeights, jsGt, jsLt, lastElem, secondLastElem,
        volumeRatio, volumeRatioHigh, buyThresholdFraction,
        sellThresholdFraction, bundleDowntrend, emptyBundle])).1⟩

/-- C9 counterexample: on a maximal buy signal (score 95.5) the confidence
is 71/120 ≈ 0.59, which exceeds the claimed upper bound 61/130 ≈ 0.47. -/
theorem C9_counterexample :
    (performAnalysis bundleMaxBuy (some 3) (some 1)).confidence = 71 / 120 ∧
    (61 : ℚ) / 130 < 71 / 120 := by
  constructor
  · norm_num [performAnalysis, ruleTrend, ruleRsi, ruleSmaCrossover, ruleMacd,
      ruleVolume, finalizeAnalysis, maxPossibleScore, weightsValues,
      configWeights, jsGt, jsLt, lastElem, secondLastElem, volumeRatio,
      volumeRatioHigh, buyThresholdFraction, sellThresholdFraction,
      bundleMaxBuy, emptyBundle]
  · norm_num

/-- C9 (amended): the score magnitude is at most 95.5
(= 30 + 20 + 20 + 0.7·15 + 15: the bb and stochastic weights are never
applied and the MACD rule applies at most 0.7 of its weight), and the
confidence is bounded above by (95.5 − 60)/60 = 71/120 — in particular it
never reaches 1. -/
theorem C9_score_confidence_bounds (b : IndicatorBundle) (cp pp : Option ℚ) :
    |(performAnalysis b cp pp).score| ≤ 191 / 2 ∧
    (performAnalysis b cp pp).confidence ≤ 71 / 120 ∧
    (performAnalysis b cp pp).confidence < 1 := by
  have habs := performAnalysis_score_abs_le b cp pp
  have hconf : (performAnalysis b cp pp).confidence ≤ 71 / 120 := by
    rw [performAnalysis_def]
    refine finalizeAnalysis_confidence_le _ _ ?_
    rw [performAnalysis_def, finalizeAnalysis_score] at habs
    exact habs
  exact ⟨habs, hconf, lt_of_le_of_lt hconf (by norm_num)⟩

/-- C9 witness: the amended bounds evaluated on the maximal buy bundle. -/
theorem C9_score_confidence_bounds_witness :
    |(performAnalysis bundleMaxBuy (some 3) (some 1)).score| ≤ 191 / 2 ∧
    (performAnalysis bundleMaxBuy (some 3) (some 1)).confidence ≤ 71 / 120 ∧
    (performAnalysis bundleMaxBuy (some 3) (some 1)).confidence < 1 :=
  C9_score_confidence_bounds bundleMaxBuy (some 3) (some 1)

/-- C10: when `currentVolume` is absent but `volumeSma20.current` and both
prices are defined, the volume ratio is taken to be 0 and the volume rule
contributes the neutral zero-weight entry (no error). -/
theorem C10_absent_volume (b : IndicatorBundle) (cp pp : Option ℚ)
    (v p q : ℚ) (hcv : b.currentVolume = none)
    (hvs : b.volumeSma20.current = some v) (hcp : cp = some p)
    (hpp : pp = some q) :
    volumeRatio b.currentVolume v = 0 ∧
    ruleVolume b cp pp = (⟨.volume, .neutral, 0⟩, 0) ∧
    (performAnalysis b cp pp).signals.get? 4 =
      some ⟨.volume, .neutral, 0⟩ := by
  have hrv : ruleVolume b cp pp = (⟨.volume, .neutral, 0⟩, 0) := by
    subst hcp hpp
    unfold ruleVolume
    rw [hvs]
    dsimp only
    rw [hcv]
    simp [volumeRatioHigh]
  refine ⟨by rw [hcv]; rfl, hrv, ?_⟩
  rw [performAnalysis_def, finalizeAnalysis_signals, hrv]
  rfl

/-- C10 witness: the absent-volume behaviour on a concrete bundle with
average volume 1 and prices 3 and 1. -/
theorem C10_absent_volume_witness :
    volumeRatio bundleNoVolume.currentVolume 1 = 0 ∧
    ruleVolume bundleNoVolume (some 3) (some 1) =
      (⟨.volume, .neutral, 0⟩, 0) ∧
    (performAnalysis bundleNoVolume (some 3) (some 1)).signals.get? 4 =
      some ⟨.volume, .neutral, 0⟩ :=
  C10_absent_volume bundleNoVolume (some 3) (some 1) 1 3 1 rfl rfl rfl rfl

/-- Cache key: the source builds the string `symbol-interval-limit`;
modelled as the triple it encodes. -/
abbrev CacheKey := String × String × Nat

/-- Classified fetch failures: a non-2xx status or transport failure in the
single-endpoint fetcher, and exhaustion of every endpoint in the failover
fetcher. -/
inductive FetchError where
  | fetchFailed
  | dataUnavailable
deriving DecidableEq, Repr

/-- `CONFIG.api.rateLimit` (milliseconds between requests). -/
def rateLimitMs : ℤ := 1000

/-- `CONFIG.api.defaultLimit`. -/
def defaultLimit : Nat := 300

/-- `CONFIG.indicators.minDataPoints = Math.max(200, 34, 18)`. -/
def minDataPoints : Nat := max (max 200 34) 18

/-- The process-wide mutable state read and written by `fetchKlines` of
`src/jj.js`: the kline cache (`cachedData.current`; assignment overwrites,
modelled by consing so that lookup finds the newest entry) and the
timestamp of the last network request (`lastRequestTime`). -/
structure FetchState where
  cache : List (CacheKey × List Kline)
  lastRequestTime : ℤ
deriving DecidableEq, Repr

/-- The network's behaviour for the one request a cache-missing
`fetchKlines` call issues. -/
inductive NetworkReply where
  | ok (data : List Kline)
  | httpError
  | transportError
deriving DecidableEq, Repr

/-- The observable outcome of one `fetchKlines` call: its result, the new
shared state, how many network requests it issued and how long the rate
limit made it wait. -/
structure FetchOutcome where
  result : Except FetchError (List Kline)
  state : FetchState
  requestsIssued : Nat
  waitedMs : ℤ
deriving Repr

/-- The rate-limit delay: when less than `rateLimitMs` has elapsed since
the last request, the call sleeps for the remainder. -/
def rateLimitWait (now lastRequestTime : ℤ) : ℤ :=
  if now - lastRequestTime < rateLimitMs then
    rateLimitMs - (now - lastRequestTime)
  else 0

/-- `fetchKlines(symbol, interval, limit)` of `src/jj.js`: return the
cached series when the key is present (no network request, no rate-limit
wait, no state change); otherwise wait out the rate limit, issue one
request, and on success cache the body and update the last-request
timestamp (`Date.now()` at response time, modelled as `now + wait`); a
non-2xx status or a transport failure is rethrown to the caller and leaves
the state unchanged. -/
def fetchKlines (st : FetchState) (now : ℤ) (symbol interval : String)
    (limit : Nat) (reply : NetworkReply) : FetchOutcome :=
  let cacheKey : CacheKey := (symbol, interval, limit)
  match st.cache.lookup cacheKey with
  | some data => ⟨.ok data, st, 0, 0⟩
  | none =>
    let wait := rateLimitWait now st.lastRequestTime
    match reply with
    | .ok data =>
      ⟨.ok data, ⟨(cacheKey, data) :: st.cache, now + wait⟩, 1, wait⟩
    | .httpError => ⟨.error .fetchFailed, st, 1, wait⟩
    | .transportError => ⟨.error .fetchFailed, st, 1, wait⟩

/-- The raw output shape of the external `macd` function. -/
structure MacdRaw where
  MACD : List ℚ
  signal : List ℚ
  histogram : List ℚ
deriving DecidableEq, Repr

/-- The raw output shape of the external `bollingerbands` function. -/
structure BollingerRaw where
  upper : List ℚ
  middle : List ℚ
  lower : List ℚ
deriving DecidableEq, Repr

/-- The raw output shape of the external `stochastic` function. -/
structure StochasticRaw where
  k : List ℚ
  d : List ℚ
deriving DecidableEq, Repr

/-- Modelled from the spec: the external `sma` of the technicalindicators
library, absent from src/ — the standard simple moving average, one output
per window of `period` consecutive values (`values.length - period + 1`
outputs, none when the input is shorter than the period). -/
def smaCalc (period : Nat) (values : List ℚ) : List ℚ :=
  (List.range (values.length + 1 - period)).map fun i =>
    ((values.drop i).take period).sum / (period : ℚ)

/-- Modelled from the spec: the external `stochastic` of the
technicalindicators library, absent from src/ — %K compares each close to
the highest high and lowest low of its `period`-candle window
(`close.length - period + 1` outputs) and %D smooths %K over
`signalPeriod` values. -/
def stochasticCalc (period signalPeriod : Nat) (high low close : List ℚ) :
    StochasticRaw :=
  let kvals := (List.range (close.length + 1 - period)).map fun i =>
    let hh := ((high.drop i).take period).max?.getD 0
    let ll := ((low.drop i).take period).min?.getD 0
    let c := ((close.drop i).take period).getLastD 0
    if hh - ll = 0 then 0 else 100 * (c - ll) / (hh - ll)
  ⟨kvals, smaCalc signalPeriod kvals⟩

/-- `calculateIndicators(klines)` of `src/jj.js`.  The external library
functions whose values no verified property depends on (`rsi`, `macd`,
`bollingerbands`) are taken as parameters; `sma` and `stochastic` are the
spec-modelled definitions above.  Each indicator is computed only when the
projected input length meets its guard (20/50/200 for the SMAs, 14 for
RSI, 34 for MACD, 20 for Bollinger, 18 for stochastic, 20 for the volume
SMA), and each `current` is the last element of its series when non-empty. -/
def calculateIndicators (extRsi : Nat → List ℚ → List ℚ)
    (extMacd : List ℚ → Nat → Nat → Nat → MacdRaw)
    (extBb : List ℚ → Nat → ℚ → BollingerRaw)
    (klines : List Kline) : IndicatorBundle :=
  let closePrices := klines.map Kline.close
  let volumes := klines.map Kline.volume
  let highPrices := klines.map Kline.high
  let lowPrices := klines.map Kline.low
  let sma20v := if closePrices.length ≥ 20 then smaCalc 20 closePrices else []
  let sma50v := if closePrices.length ≥ 50 then smaCalc 50 closePrices else []
  let sma200v :=
    if closePrices.length ≥ 200 then smaCalc 200 closePrices else []
  let rsiv := if closePrices.length ≥ 14 then extRsi 14 closePrices else []
  let macdv : Option MacdRaw :=
    if closePrices.length ≥ 34 then some (extMacd closePrices 12 26 9)
    else none
  let bbv : Option BollingerRaw :=
    if closePrices.length ≥ 20 then some (extBb closePrices 20 2) else none
  let stochv : Option StochasticRaw :=
    if highPrices.length ≥ 18 ∧ lowPrices.length ≥ 18 ∧
        closePrices.length ≥ 18 then
      some (stochasticCalc 14 3 highPrices lowPrices closePrices)
    else none
  let volumeSma20v := if volumes.length ≥ 20 then smaCalc 20 volumes else []
  { sma20 := ⟨sma20v, sma20v.getLast?⟩,
    sma50 := ⟨sma50v, sma50v.getLast?⟩,
    sma200 := ⟨sma200v, sma200v.getLast?⟩,
    rsi := ⟨rsiv, rsiv.getLast?⟩,
    macd :=
      match macdv with
      | some m => ⟨m.MACD, m.signal, m.histogram, m.MACD.getLast?,
          m.signal.getLast?, m.histogram.getLast?⟩
      | none => ⟨[], [], [], none, none, none⟩,
    bollingerbands :=
      match bbv with
      | some v => ⟨v.upper, v.middle, v.lower, v.upper.getLast?,
          v.middle.getLast?, v.lower.getLast?⟩
      | none => ⟨[], [], [], none, none, none⟩,
    stochastic :=
      match stochv with
      | some s => ⟨s.k, s.d, s.k.getLast?, s.d.getLast?⟩
      | none => ⟨[], [], none, none⟩,
    volumeSma20 := ⟨volumeSma20v, volumeSma20v.getLast?⟩,
    currentVolume := volumes.getLast? }

/-- Classified failures of an `analyzeMarket` run. -/
inductive AnalysisError where
  | fetchError
  | insufficientData
  | priceProcessing
deriving DecidableEq, Repr

/-- The results record `analyzeMarket` stores on success. -/
structure MarketResults where
  currentPrice : ℚ
  indicators : IndicatorBundle
  analysis : Analysis
  klines : List Kline
deriving DecidableEq, Repr

/-- `analyzeMarket` of `src/jj.js` (its algorithmic core): fetch with the
default limit, fail with `insufficientData` when fewer than
`minDataPoints` candles come back, derive the last two close prices, run
the Indicator Pipeline and the Decision Engine, and return the results
together with the fetcher state left behind.  NaN handling is vacuous over
`ℚ` and not modelled. -/
def analyzeMarket (extRsi : Nat → List ℚ → List ℚ)
    (extMacd : List ℚ → Nat → Nat → Nat → MacdRaw)
    (extBb : List ℚ → Nat → ℚ → BollingerRaw)
    (st : FetchState) (now : ℤ) (symbol timeframe : String)
    (reply : NetworkReply) :
    Except AnalysisError MarketResults × FetchState :=
  let fr := fetchKlines st now symbol timeframe defaultLimit reply
  match fr.result with
  | .error _ => (.error .fetchError, fr.state)
  | .ok klines =>
    if klines.length < minDataPoints then
      (.error .insufficientData, fr.state)
    else
      let prices := klines.map Kline.close
      match prices.getLast?, prices.dropLast.getLast? with
      | some currentPrice, some previousPrice =>
        let indicators := calculateIndicators extRsi extMacd extBb klines
        (.ok ⟨currentPrice, indicators,
          performAnalysis indicators (some currentPrice)
            (some previousPrice), klines⟩, fr.state)
      | _, _ => (.error .priceProcessing, fr.state)

/-- The ordered endpoint list of the failover fetcher. -/
def binanceEndpoints : List String :=
  ["https://api.binance.com", "https://api1.binance.com",
    "https://api2.binance.com", "https://api3.binance.com"]

/-- One endpoint's behaviour for the failover fetcher: a 2xx response
whose body may or may not parse to a kline array, a non-2xx status, or a
transport failure. -/
inductive EndpointReply where
  | ok (body : Option (List Kline))
  | httpError
  | transportError
deriving DecidableEq, Repr

/-- A reply satisfies the failover fetcher when it is a 2xx response whose
parsed body has at least 50 rows (`data && data.length >= 50`). -/
def satisfyingReply : EndpointReply → Option (List Kline)
  | .ok (some data) => if 50 ≤ data.length then some data else none
  | _ => none

/-- `fetchKlines` of the unnamed failover source file: walk the endpoint
list in order; a 2xx response with at least 50 rows is returned at once,
anything else (non-2xx, transport failure, unparseable or short body)
moves on to the next endpoint; an exhausted list raises the
geo-unavailability error.  Also returns the list of endpoints contacted,
in order. -/
def fetchKlinesFailover (replies : String → EndpointReply) :
    List String → Except FetchError (List Kline) × List String
  | [] => (.error .dataUnavailable, [])
  | endpoint :: rest =>
    match replies endpoint with
    | .ok (some data) =>
      if 50 ≤ data.length then (.ok data, [endpoint])
      else
        let r := fetchKlinesFailover replies rest
        (r.1, endpoint :: r.2)
    | _ =>
      let r := fetchKlinesFailover replies rest
      (r.1, endpoint :: r.2)

/-- A length-based handle on the stochastic entry: the guard reduces to a
single length test of the input series. -/
lemma calculateIndicators_stochastic (extRsi : Nat → List ℚ → List ℚ)
    (extMacd : List ℚ → Nat → Nat → Nat → MacdRaw)
    (extBb : List ℚ → Nat → ℚ → BollingerRaw) (klines : List Kline) :
    (calculateIndicators extRsi extMacd extBb klines).stochastic =
      if 18 ≤ klines.length then
        ⟨(stochasticCalc 14 3 (klines.map Kline.high) (klines.map Kline.low)
            (klines.map Kline.close)).k,
          (stochasticCalc 14 3 (klines.map Kline.high) (klines.map Kline.low)
            (klines.map Kline.close)).d,
          (stochasticCalc 14 3 (klines.map Kline.high) (klines.map Kline.low)
            (klines.map Kline.close)).k.getLast?,
          (stochasticCalc 14 3 (klines.map Kline.high) (klines.map Kline.low)
            (klines.map Kline.close)).d.getLast?⟩
      else ⟨[], [], none, none⟩ := by
  unfold calculateIndicators
  dsimp only
  simp only [List.length_map, ge_iff_le, and_self]
  split_ifs with h <;> rfl

lemma smaCalc_length (period : Nat) (values : List ℚ) :
    (smaCalc period values).length = values.length + 1 - period := by
  simp [smaCalc]

lemma stochasticCalc_k_length (p sp : Nat) (high low close : List ℚ) :
    (stochasticCalc p sp high low close).k.length = close.length + 1 - p := by
  simp [stochasticCalc]

lemma stochasticCalc_d_length (p sp : Nat) (high low close : List ℚ) :
    (stochasticCalc p sp high low close).d.length =
      (close.length + 1 - p) + 1 - sp := by
  simp [stochasticCalc, smaCalc_length]

/-- C8 (amended): the stochastic(14,3) entry of the bundle is computed
exactly when the input series has at least 18 candles (the source guard),
not 17; any shorter series leaves the entry empty with both currents
absent. -/
theorem C8_stochastic_threshold (extRsi : Nat → List ℚ → List ℚ)
    (extMacd : List ℚ → Nat → Nat → Nat → MacdRaw)
    (extBb : List ℚ → Nat → ℚ → BollingerRaw) (klines : List Kline) :
    (klines.length < 18 →
      (calculateIndicators extRsi extMacd extBb klines).stochastic =
        ⟨[], [], none, none⟩) ∧
    (18 ≤ klines.length →
      (calculateIndicators extRsi extMacd extBb
          klines).stochastic.currentK.isSome ∧
      (calculateIndicators extRsi extMacd extBb
          klines).stochastic.currentD.isSome) := by
  constructor
  · intro h
    rw [calculateIndicators_stochastic, if_neg (by omega)]
  · intro h
    rw [calculateIndicators_stochastic, if_pos h]
    constructor
    · simp only [List.getLast?_isSome]
      apply List.length_pos.mp
      rw [stochasticCalc_k_length, List.length_map]
      omega
    · simp only [List.getLast?_isSome]
      apply List.length_pos.mp
      rw [stochasticCalc_d_length, List.length_map]
      omega

/-- A constant candle used in concrete inputs. -/
def kline0 : Kline := ⟨0, 1, 0, 1, 1⟩

/-- Dummy stand-in for the external `rsi` (its values decide nothing). -/
def extRsiZero : Nat → List ℚ → List ℚ := fun _ _ => []

/-- Dummy stand-in for the external `macd`. -/
def extMacdZero : List ℚ → Nat → Nat → Nat → MacdRaw := fun _ _ _ _ =>
  ⟨[], [], []⟩

/-- Dummy stand-in for the external `bollingerbands`. -/
def extBbZero : List ℚ → Nat → ℚ → BollingerRaw := fun _ _ _ => ⟨[], [], []⟩

/-- A 17-candle series: exactly the length the claim says should compute
the stochastic. -/
def klines17 : List Kline := List.replicate 17 kline0

/-- An 18-candle series: the shortest the source computes the stochastic
for. -/
def klines18 : List Kline := List.replicate 18 kline0

/-- C8 counterexample: a 17-candle series (= the claimed 14 + 3 threshold)
leaves the stochastic entry empty with both currents absent — the source
guard requires 18. -/
theorem C8_counterexample :
    klines17.length = 17 ∧
    (calculateIndicators extRsiZero extMacdZero extBbZero
        klines17).stochastic = ⟨[], [], none, none⟩ :=
  ⟨rfl, rfl⟩

/-- C8 witness: the threshold behaviour at the boundary lengths 17 and 18. -/
theorem C8_stochastic_threshold_witness :
    (calculateIndicators extRsiZero extMacdZero extBbZero
        klines17).stochastic = ⟨[], [], none, none⟩ ∧
    (calculateIndicators extRsiZero extMacdZero extBbZero
        klines18).stochastic.currentK.isSome ∧
    (calculateIndicators extRsiZero extMacdZero extBbZero
        klines18).stochastic.currentD.isSome :=
  ⟨(C8_stochastic_threshold extRsiZero extMacdZero extBbZero klines17).1
      (by decide),
    ((C8_stochastic_threshold extRsiZero extMacdZero extBbZero klines18).2
      (by decide)).1,
    ((C8_stochastic_threshold extRsiZero extMacdZero extBbZero klines18).2
      (by decide)).2⟩

/-- C6: a fetch whose key is already cached returns the cached series with
no network request, no rate-limit wait, and the state (cache and
last-request timestamp) unchanged — whatever the network would have
replied. -/
theorem C6_cache_hit (st : FetchState) (now : ℤ) (symbol interval : String)
    (limit : Nat) (reply : NetworkReply) (data : List Kline)
    (h : st.cache.lookup (symbol, interval, limit) = some data) :
    fetchKlines st now symbol interval limit reply = ⟨.ok data, st, 0, 0⟩ := by
  unfold fetchKlines
  dsimp only
  rw [h]

/-- The 300-candle series cached in the witness state. -/
def cachedKlines : List Kline := List.replicate 300 kline0

/-- A fetch state whose cache already holds the (BTCUSDT, 1h, 300) key. -/
def stWithCache : FetchState :=
  ⟨[(("BTCUSDT", "1h", 300), cachedKlines)], 0⟩

/-- C6 witness: a second identical request against the cached state
returns the cached series untouched even though the network would reply
with an error. -/
theorem C6_cache_hit_witness :
    fetchKlines stWithCache 999999 "BTCUSDT" "1h" 300 .httpError =
      ⟨.ok cachedKlines, stWithCache, 0, 0⟩ :=
  C6_cache_hit stWithCache 999999 "BTCUSDT" "1h" 300 .httpError cachedKlines
    rfl

/-- C5: when a cache-missing fetch succeeds but returns fewer than the 200
candles `minDataPoints` requires, the series is still inserted into the
cache under its key — so any later identical request returns it — and the
analysis run fails with the insufficient-data error. -/
theorem C5_short_series_cached (extRsi : Nat → List ℚ → List ℚ)
    (extMacd : List ℚ → Nat → Nat → Nat → MacdRaw)
    (extBb : List ℚ → Nat → ℚ → BollingerRaw)
    (st : FetchState) (now : ℤ) (symbol timeframe : String)
    (data : List Kline)
    (hmiss : st.cache.lookup (symbol, timeframe, defaultLimit) = none)
    (hshort : data.length < 200) :
    (analyzeMarket extRsi extMacd extBb st now symbol timeframe
        (.ok data)).1 = .error .insufficientData ∧
    (analyzeMarket extRsi extMacd extBb st now symbol timeframe
        (.ok data)).2.cache.lookup (symbol, timeframe, defaultLimit) =
      some data ∧
    ∀ (now2 : ℤ) (reply2 : NetworkReply),
      (fetchKlines
        (analyzeMarket extRsi extMacd extBb st now symbol timeframe
          (.ok data)).2 now2 symbol timeframe defaultLimit reply2).result =
        .ok data := by
  have hfetch : fetchKlines st now symbol timeframe defaultLimit (.ok data) =
      ⟨.ok data,
        ⟨((symbol, timeframe, defaultLimit), data) :: st.cache,
          now + rateLimitWait now st.lastRequestTime⟩, 1,
        rateLimitWait now st.lastRequestTime⟩ := by
    unfold fetchKlines
    dsimp only
    rw [hmiss]
  have hmin : data.length < minDataPoints := by
    have h200 : minDataPoints = 200 := by decide
    omega
  have hmarket : analyzeMarket extRsi extMacd extBb st now symbol timeframe
      (.ok data) =
      (.error .insufficientData,
        ⟨((symbol, timeframe, defaultLimit), data) :: st.cache,
          now + rateLimitWait now st.lastRequestTime⟩) := by
    unfold analyzeMarket
    rw [hfetch]
    dsimp only
    rw [if_pos hmin]
  refine ⟨by rw [hmarket], ?_, ?_⟩
  · rw [hmarket]
    simp [List.lookup]
  · intro now2 reply2
    rw [hmarket]
    unfold fetchKlines
    dsimp only
    simp [List.lookup]

/-- C5 witness: a 17-candle success on an empty cache is cached under its
key yet fails the run with the insufficient-data error. -/
theorem C5_short_series_cached_witness :
    (analyzeMarket extRsiZero extMacdZero extBbZero ⟨[], 0⟩ 0 "BTCUSDT" "1h"
        (.ok klines17)).1 = .error .insufficientData ∧
    (analyzeMarket extRsiZero extMacdZero extBbZero ⟨[], 0⟩ 0 "BTCUSDT" "1h"
        (.ok klines17)).2.cache.lookup ("BTCUSDT", "1h", defaultLimit) =
      some klines17 :=
  ⟨(C5_short_series_cached extRsiZero extMacdZero extBbZero ⟨[], 0⟩ 0
      "BTCUSDT" "1h" klines17 rfl (by decide)).1,
    (C5_short_series_cached extRsiZero extMacdZero extBbZero ⟨[], 0⟩ 0
      "BTCUSDT" "1h" klines17 rfl (by decide)).2.1⟩

lemma fetchKlinesFailover_contacted_prefix
    (replies : String → EndpointReply) :
    ∀ es : List String, (fetchKlinesFailover replies es).2 <+: es := by
  intro es
  induction es with
  | nil => exact List.prefix_refl _
  | cons e rest ih =>
    unfold fetchKlinesFailover
    rcases replies e with body | _ | _ <;> dsimp only
    · rcases body with _ | data <;> dsimp only
      · simp [List.cons_prefix_cons, ih]
      · split_ifs with hlen
        · simp [List.cons_prefix_cons]
        · simp [List.cons_prefix_cons, ih]
    · simp [List.cons_prefix_cons, ih]
    · simp [List.cons_prefix_cons, ih]

lemma fetchKlinesFailover_exhausted (replies : String → EndpointReply) :
    ∀ es : List String, (∀ e ∈ es, satisfyingReply (replies e) = none) →
      fetchKlinesFailover replies es = (.error .dataUnavailable, es) := by
  intro es
  induction es with
  | nil => intro h; rfl
  | cons e rest ih =>
    intro h
    have he := h e (List.mem_cons_self e rest)
    have ht := ih (fun x hx => h x (List.mem_cons_of_mem e hx))
    unfold fetchKlinesFailover
    rcases hr : replies e with body | _ | _
    · rcases body with _ | data
      · dsimp only
        simp [ht]
      · rw [hr] at he
        simp only [satisfyingReply] at he
        dsimp only
        split_ifs at he ⊢ with hlen
        all_goals simp [ht]
    · dsimp only
      simp [ht]
    · dsimp only
      simp [ht]

lemma fetchKlinesFailover_first (replies : String → EndpointReply)
    (e : String) (d : List Kline)
    (he : satisfyingReply (replies e) = some d) :
    ∀ pre post : List String,
      (∀ x ∈ pre, satisfyingReply (replies x) = none) →
      fetchKlinesFailover replies (pre ++ e :: post) = (.ok d, pre ++ [e]) := by
  intro pre
  induction pre with
  | nil =>
    intro post _
    simp only [List.nil_append]
    unfold fetchKlinesFailover
    rcases hr : replies e with body | _ | _
    · rcases body with _ | data
      · rw [hr] at he
        simp [satisfyingReply] at he
      · rw [hr] at he
        simp only [satisfyingReply] at he
        dsimp only
        split_ifs at he ⊢ with hlen
        all_goals (obtain rfl := Option.some.inj he; rfl)
    · rw [hr] at he
      simp [satisfyingReply] at he
    · rw [hr] at he
      simp [satisfyingReply] at he
  | cons x pre ih =>
    intro post hpre
    have hx := hpre x (List.mem_cons_self x pre)
    have ht := ih post (fun y hy => hpre y (List.mem_cons_of_mem x hy))
    simp only [List.cons_append]
    unfold fetchKlinesFailover
    rcases hr : replies x with body | _ | _
    · rcases body with _ | data
      · dsimp only
        simp [ht]
      · rw [hr] at hx
        simp only [satisfyingReply] at hx
        dsimp only
        split_ifs at hx ⊢ with hlen
        all_goals simp [ht]
    · dsimp only
      simp [ht]
    · dsimp only
      simp [ht]

/-- C7: the failover fetcher contacts the configured endpoints in listed
order, each at most once (the contacted list is a duplicate-free prefix of
the endpoint list); with a first satisfying endpoint it returns that
payload having contacted exactly the endpoints up to and including it; and
with no satisfying endpoint it contacts all of them and fails with the
data-unavailable error. -/
theorem C7_endpoint_failover (replies : String → EndpointReply) :
    (fetchKlinesFailover replies binanceEndpoints).2.Nodup ∧
    (fetchKlinesFailover replies binanceEndpoints).2 <+: binanceEndpoints ∧
    ((∀ e ∈ binanceEndpoints, satisfyingReply (replies e) = none) →
      fetchKlinesFailover replies binanceEndpoints =
        (.error .dataUnavailable, binanceEndpoints)) ∧
    (∀ (pre : List String) (e : String) (post : List String)
        (d : List Kline),
      binanceEndpoints = pre ++ e :: post →
      (∀ x ∈ pre, satisfyingReply (replies x) = none) →
      satisfyingReply (replies e) = some d →
      fetchKlinesFailover replies binanceEndpoints = (.ok d, pre ++ [e])) := by
  have hpre := fetchKlinesFailover_contacted_prefix replies binanceEndpoints
  refine ⟨?_, hpre, ?_, ?_⟩
  · exact List.Nodup.sublist hpre.sublist (by decide)
  · exact fetchKlinesFailover_exhausted replies binanceEndpoints
  · intro pre e post d heq h1 h2
    rw [heq]
    exact fetchKlinesFailover_first replies e d h2 pre post h1

/-- A network in which the first two endpoints fail at transport level and
the third returns a 50-candle payload. -/
def repliesWitness : String → EndpointReply := fun e =>
  if e = "https://api2.binance.com" then
    .ok (some (List.replicate 50 kline0))
  else .transportError

/-- C7 witness: under `repliesWitness` the fetcher returns the third
endpoint's payload having contacted exactly the first three endpoints. -/
theorem C7_endpoint_failover_witness :
    fetchKlinesFailover repliesWitness binanceEndpoints =
      (.ok (List.replicate 50 kline0),
        ["https://api.binance.com", "https://api1.binance.com",
          "https://api2.binance.com"]) :=
  (C7_endpoint_failover repliesWitness).2.2.2
    ["https://api.binance.com", "https://api1.binance.com"]
    "https://api2.binance.com" ["https://api3.binance.com"]
    (List.replicate 50 kline0) rfl
    (by intro x hx; fin_cases hx <;> rfl) rfl

end Binance
